import Mathlib

/-!
Verification of the vertexa 3D model viewer's adapter layer.

The Python sources under `app/` are shallowly embedded: pure dispatch and
list-processing code becomes Lean functions, stateful code (the VTK render
window, the scene manager) becomes explicit state passing, and calls into
third-party libraries (VTK importers, pycollada, assimp-py, pyassimp, OCP)
become environment records describing the outcome of each external call.
Python exceptions are modelled with `Except`.
-/

namespace Vertexa

/-! ## Python path helpers (`pathlib.Path.suffix`, `.name`)

`load_model_into_renderer` computes `Path(file_path).suffix.lower()` and
strips a leading dot.  We model POSIX-style paths split on a slash
(trailing-separator normalisation of `pathlib` is not needed by any claim).
-/

def splitOnChar (c : Char) : List Char → List (List Char)
  | [] => [[]]
  | x :: xs =>
    let r := splitOnChar c xs
    if x = c then [] :: r
    else
      match r with
      | [] => [[x]]
      | g :: gs => (x :: g) :: gs

/-- The final path component, as `pathlib`'s `.name` (modulo trailing-slash
normalisation, irrelevant here). -/
def pyNameChars (p : List Char) : List Char :=
  (splitOnChar '/' p).getLastD []

/-- Index of the last occurrence of a character, as Python's `str.rfind`
(`none` for Python's `-1`). -/
def lastIdxOf (c : Char) : List Char → Option Nat
  | [] => none
  | x :: xs =>
    match lastIdxOf c xs with
    | some i => some (i + 1)
    | none => if x = c then some 0 else none

/-- `pathlib.PurePath.suffix`: `name[i:]` when `0 < i < len(name) - 1` for
`i = name.rfind('.')`, else the empty string. -/
def pySuffixChars (name : List Char) : List Char :=
  match lastIdxOf '.' name with
  | some i => if 0 < i ∧ i < name.length - 1 then name.drop i else []
  | none => []

/-- The extension key computed at the top of `load_model_into_renderer`:
lowercased suffix with the leading dot stripped. -/
def pyExtKey (p : String) : String :=
  let suf := (pySuffixChars (pyNameChars p.data)).map Char.toLower
  match suf with
  | '.' :: rest => String.mk rest
  | l => String.mk l

/-! ## `file_loaders.load_model_into_renderer` — extension dispatch (C1) -/

/-- Which loader `load_model_into_renderer` selects; `unsupported e` models
the `ValueError(f"unsupported file extension: .{e}")` raised at the end. -/
inductive LoadAction
  | readStl
  | readObj
  | readPly
  | readVtp
  | loadStep
  | sceneGltf
  | sceneCollada
  | sceneFbx
  | unsupported (ext : String)
deriving DecidableEq, Repr

/-- Embedding of the dispatch in `file_loaders.load_model_into_renderer`. -/
def load_model_into_renderer (p : String) : LoadAction :=
  let ext := pyExtKey p
  if ext = "stl" then .readStl
  else if ext = "obj" then .readObj
  else if ext = "ply" then .readPly
  else if ext = "vtp" then .readVtp
  else if ext = "stp" ∨ ext = "step" then .loadStep
  else if ext = "gltf" ∨ ext = "glb" then .sceneGltf
  else if ext = "dae" then .sceneCollada
  else if ext = "fbx" then .sceneFbx
  else .unsupported ext

/-- The extensions the spec's format list covers (STL, OBJ, PLY, glTF,
COLLADA, FBX, STEP) — written from the spec sentence, for comparison. -/
def specListedExtensions : List String :=
  ["stl", "obj", "ply", "gltf", "glb", "dae", "fbx", "stp", "step"]

/-- The extensions the code actually dispatches on (the spec's list plus
VTK's own `.vtp` format). -/
def handledExtensions : List String :=
  ["stl", "obj", "ply", "vtp", "stp", "step", "gltf", "glb", "dae", "fbx"]

/-- Modelled from the amended claim's wording: the loader chosen per
lowercased extension, `ValueError` otherwise. -/
def specDispatchTable (ext : String) : LoadAction :=
  if ext = "stl" then .readStl
  else if ext = "obj" then .readObj
  else if ext = "ply" then .readPly
  else if ext = "vtp" then .readVtp
  else if ext = "stp" ∨ ext = "step" then .loadStep
  else if ext = "gltf" ∨ ext = "glb" then .sceneGltf
  else if ext = "dae" then .sceneCollada
  else if ext = "fbx" then .sceneFbx
  else .unsupported ext

/-! ## `scene_manager.SceneManager` (C5, C7)

Actors are identified by `Nat` ids.  The VTK actor properties touched by
selection (`EdgeVisibility`, `EdgeColor`, `LineWidth`) and by hiding
(`Visibility`) live in per-actor maps; no arithmetic is performed on them,
they are only stored and restored, so `ℚ` stands in for Python floats. -/

structure MatProps where
  edgeVis : ℤ
  edgeColor : ℚ × ℚ × ℚ
  lineWidth : ℚ
deriving DecidableEq, Repr

/-- `scene_manager.SelectedState`. -/
structure SelectedState where
  actor : ℕ
  origEdgeVis : ℤ
  origEdgeColor : ℚ × ℚ × ℚ
  origLineWidth : ℚ
deriving DecidableEq, Repr

/-- The mutable state of `SceneManager` (lighting fields are untouched by the
claims and omitted): `_actors`, `_selected`, `_hidden`, plus the per-actor
VTK property state the manager reads and writes. -/
structure SceneState where
  actors : List ℕ
  selected : Option SelectedState
  hidden : Finset ℕ
  props : ℕ → MatProps
  visibility : ℕ → ℤ

/-- `SceneManager.clear_selection`: restore the stored original edge
properties of the selected actor, then drop the selection. -/
def clear_selection (s : SceneState) : SceneState :=
  match s.selected with
  | none => s
  | some st =>
    { s with
      props := fun b =>
        if b = st.actor then ⟨st.origEdgeVis, st.origEdgeColor, st.origLineWidth⟩
        else s.props b
      selected := none }

/-- The `self._selected is not None and self._selected.actor == actor` test. -/
def isSelected (s : SceneState) (a : ℕ) : Bool :=
  match s.selected with
  | some st => decide (st.actor = a)
  | none => false

/-- `SceneManager.select_actor`. -/
def select_actor (s : SceneState) (oa : Option ℕ) : SceneState :=
  match oa with
  | none => clear_selection s
  | some a =>
    if isSelected s a then s
    else
      let s1 := clear_selection s
      let p := s1.props a
      { s1 with
        selected := some ⟨a, p.edgeVis, p.edgeColor, p.lineWidth⟩
        props := fun b => if b = a then ⟨1, ((1 : ℚ), (1 : ℚ), (0 : ℚ)), 2⟩ else s1.props b }

/-- `SceneManager.selected_actor`. -/
def selected_actor (s : SceneState) : Option ℕ :=
  s.selected.map SelectedState.actor

/-- `SceneManager.hide_selected`: returns the Python `bool` next to the
updated state. -/
def hide_selected (s : SceneState) : Bool × SceneState :=
  match s.selected with
  | none => (false, s)
  | some st =>
    let s1 :=
      { s with
        visibility := fun b => if b = st.actor then 0 else s.visibility b
        hidden := insert st.actor s.hidden }
    (true, clear_selection s1)

/-- `SceneManager.reveal_all_hidden`: returns the revealed count next to the
updated state. -/
def reveal_all_hidden (s : SceneState) : ℕ × SceneState :=
  if s.hidden = ∅ then (0, s)
  else
    (s.hidden.card,
     { s with
       visibility := fun a => if a ∈ s.hidden then 1 else s.visibility a
       hidden := ∅ })

/-- The actors currently selected (the `Option` field as a list); the data
model itself enforces that this has at most one element. -/
def selectedActors (s : SceneState) : List ℕ :=
  match s.selected with
  | some st => [st.actor]
  | none => []

/-- `SceneManager.clear_all` (renderer detachment is not tracked here;
`clear_selection` restores the selected actor's properties first). -/
def clear_all (s : SceneState) : SceneState :=
  let s1 := clear_selection s
  { s1 with actors := [], hidden := ∅ }

/-- `SceneManager.add_actors`: append each actor to `_actors`. -/
def add_actors (s : SceneState) (new : List ℕ) : SceneState :=
  { s with actors := s.actors ++ new }

/-! ## `vtk_viewport.VTKViewport.load_file` (C3) -/

/-- `file_loaders.LoadResult`. -/
structure SceneLoadResult where
  actors : List ℕ
  warnings : List String
deriving DecidableEq, Repr

/-- Observable outcome of `VTKViewport.load_file`: the scene state plus the
status-bar messages emitted and the modal error dialogs shown.  The function
is total — the `except Exception` handler means no loading exception escapes
to the caller, so the codomain is a plain state, not `Except`. -/
structure LoadFileOut where
  scene : SceneState
  statuses : List String
  dialogs : List String

/-- `VTKViewport.load_file`.  `loadResult` is the outcome of the
`load_model_into_renderer` call: `Except.error e` stands for any `Exception`
whose user-visible text is `e`. -/
def load_file (clearOnLoad : Bool) (s : SceneState) (filePath : String)
    (loadResult : Except String SceneLoadResult) : LoadFileOut :=
  let s0 := if clearOnLoad then clear_all s else s
  match loadResult with
  | .ok r =>
    { scene := add_actors s0 r.actors
      statuses :=
        (r.warnings.map (fun w => "warning: " ++ w)) ++
          ["loaded: " ++ String.mk (pyNameChars filePath.data)]
      dialogs := [] }
  | .error e =>
    { scene := s0
      statuses := ["load failed"]
      dialogs := ["failed to load file:\n" ++ filePath ++ "\n\n" ++ e] }

/-! ## Render-window model and `file_loaders._import_scene` (C2, C4)

A render window is a list of renderers, each holding a list of actor ids
(`GetAddressAsString` makes the id stable and unique per VTK object), plus
the per-actor `Pickable` flag.  The VTK importer run (`importer.Update()`)
is an external effect: the environment supplies the window state it leaves
behind, and the outcomes of every fallback library call. -/

structure Renderer where
  rid : ℕ
  actors : List ℕ
deriving DecidableEq, Repr

structure Window where
  renderers : List Renderer
  pickable : ℕ → Bool

/-- `file_loaders._snapshot_actor_ids` (as a list; the Python set only ever
answers membership queries). -/
def snapshot_actor_ids (w : Window) : List ℕ :=
  (w.renderers.map Renderer.actors).flatten

/-- Renderer ids currently in the window (`_iter_renderers` + address). -/
def rendererIds (w : Window) : List ℕ :=
  w.renderers.map Renderer.rid

/-- `file_loaders._detach_new_actors`: for each renderer, remove every actor
whose id was not in the snapshot, set it pickable, and collect it. -/
def detach_new_actors (w : Window) (before : List ℕ) : Window × List ℕ :=
  let news := (w.renderers.map (fun r => r.actors.filter (fun a => decide (a ∉ before)))).flatten
  ({ renderers := w.renderers.map
       (fun r => { r with actors := r.actors.filter (fun a => decide (a ∈ before)) })
     pickable := fun a => if a ∈ news then true else w.pickable a },
   news)

/-- `file_loaders._prune_new_renderers`: drop every renderer that did not
exist before the call, except the main renderer passed in. -/
def prune_new_renderers (w : Window) (beforeR : List ℕ) (keep : ℕ) : Window :=
  { w with renderers :=
      w.renderers.filter (fun r => decide (r.rid = keep ∨ r.rid ∈ beforeR)) }

inductive ImporterType
  | gltf
  | collada
  | fbx
deriving DecidableEq, Repr

/-- The stages of the fallback chain that `_import_scene` can attempt. -/
inductive Stage
  | nativeImporter
  | pycolladaFallback
  | assimpPyFallback
  | pyassimpFallback
deriving DecidableEq, Repr

/-- Environment for one `_import_scene` call: the window before the call,
whether the native VTK importer class could be constructed, the window left
behind by `importer.Update()` when it ran, and the outcome of each fallback
library call (`Except.error e` models a raised exception with text `e`). -/
structure SceneEnv where
  w0 : Window
  nativeAvailable : Bool
  postImportWindow : Window
  pycollada : Except String (List ℕ × List String)
  assimpPy : Except String (List ℕ × List String)
  pyassimpAvailable : Bool
  pyassimpLoad : Except String (List ℕ)

/-- Result of `_import_scene`: Python return value or raised exception, the
stages attempted in order, and the final render-window state. -/
structure SceneOut where
  result : Except String SceneLoadResult
  trace : List Stage
  window : Window

/-- Warning appended when the native importer class is unavailable. -/
def nativeUnavailableWarning : ImporterType → String
  | .gltf => "vtkGLTFImporter not available in this vtk build"
  | .collada => "vtkCOLLADAImporter not available in this vtk build"
  | .fbx => "vtkFBXImporter not available in this vtk build"

/-- Embedding of `file_loaders._import_scene`.  `keep` is the main renderer
passed by the caller. -/
def importScene (t : ImporterType) (env : SceneEnv) (keep : ℕ) : SceneOut :=
  let beforeA := snapshot_actor_ids env.w0
  let beforeR := rendererIds env.w0
  let warn0 : List String :=
    if env.nativeAvailable then [] else [nativeUnavailableWarning t]
  if env.nativeAvailable then
    let dp := detach_new_actors env.postImportWindow beforeA
    let w3 := prune_new_renderers dp.1 beforeR keep
    if dp.2 ≠ [] then
      { result := .ok ⟨dp.2, warn0⟩, trace := [.nativeImporter], window := w3 }
    else
      let w1 := warn0 ++ ["import finished but no new actors were detected"]
      if t = .collada then
        match env.pycollada with
        | .ok (a, rw) =>
          { result := .ok ⟨a, w1 ++ rw ++ ["loaded using pycollada fallback"]⟩
            trace := [.nativeImporter, .pycolladaFallback], window := w3 }
        | .error e =>
          { result := .ok ⟨[], w1 ++ ["pycollada fallback failed: " ++ e]⟩
            trace := [.nativeImporter, .pycolladaFallback], window := w3 }
      else
        { result := .ok ⟨[], w1⟩, trace := [.nativeImporter], window := w3 }
  else
    match t with
    | .collada =>
      match env.pycollada with
      | .ok (a, rw) =>
        { result := .ok ⟨a, warn0 ++ rw ++ ["loaded using pycollada fallback"]⟩
          trace := [.pycolladaFallback], window := env.w0 }
      | .error e =>
        { result := .error ("failed to load dae. your vtk build may not include vtkCOLLADAImporter. pycollada fallback is installed but failed to parse this dae. details: " ++ e)
          trace := [.pycolladaFallback], window := env.w0 }
    | .fbx =>
      match env.assimpPy with
      | .ok (a, rw) =>
        { result := .ok ⟨a, warn0 ++ rw ++ ["loaded using assimp-py fallback"]⟩
          trace := [.assimpPyFallback], window := env.w0 }
      | .error e =>
        { result := .error ("failed to load fbx. your vtk build may not include vtkFBXImporter. install the fallback dependency with: pip install assimp-py, or convert fbx to glb/gltf/obj. details: " ++ e)
          trace := [.assimpPyFallback], window := env.w0 }
    | .gltf =>
      if env.pyassimpAvailable then
        match env.pyassimpLoad with
        | .ok a =>
          { result := .ok ⟨a, warn0 ++ ["loaded using assimp fallback"]⟩
            trace := [.pyassimpFallback], window := env.w0 }
        | .error _ =>
          { result := .error "no suitable importer available for this file format. for fbx/gltf, your vtk build must include the corresponding importer. for dae, install pycollada for the pure python fallback."
            trace := [.pyassimpFallback], window := env.w0 }
      else
        { result := .error "no suitable importer available for this file format. for fbx/gltf, your vtk build must include the corresponding importer. for dae, install pycollada for the pure python fallback."
          trace := [], window := env.w0 }

/-- Whether an `_import_scene` outcome is a raised exception. -/
def isRaise (o : SceneOut) : Prop :=
  ∃ e, o.result = .error e

instance (o : SceneOut) : Decidable (isRaise o) := by
  unfold isRaise
  cases o.result with
  | ok r => exact .isFalse (by simp)
  | error e => exact .isTrue ⟨e, rfl⟩

/-! ## `step_loader.load_step_ocp` (C6)

External OCP calls become an environment.  Per face, the environment says
whether `BRep_Tool.Triangulation` returned a triangulation, which node
indices the node loop inserted into `idx_map` (and whether it raised
part-way, which makes the face count as unmeshed), and the sequence of
triangle items — `none` marks an item whose index read raises, which aborts
the rest of that face's triangle loop but keeps the cells already inserted. -/

structure FaceTriangulation where
  nodes : List ℕ
  nodesRaise : Bool
  triItems : List (Option (ℕ × ℕ × ℕ))
deriving DecidableEq, Repr

structure StepFace where
  tri : Option FaceTriangulation
deriving DecidableEq, Repr

structure StepEnv where
  ocpAvailable : Bool
  readDone : Bool
  shapePresent : Bool
  meshOk : Bool
  faces : List StepFace
deriving DecidableEq, Repr

/-- Cells inserted by one face's triangle loop: items are processed in
order, an index triple is inserted only when all three indices are in
`idx_map`, and a raising item stops the loop. -/
def countValidTris (nodes : List ℕ) : List (Option (ℕ × ℕ × ℕ)) → ℕ
  | [] => 0
  | none :: _ => 0
  | some (a, b, c) :: rest =>
    (if a ∈ nodes ∧ b ∈ nodes ∧ c ∈ nodes then 1 else 0) + countValidTris nodes rest

/-- Triangles contributed by one face of the explorer loop. -/
def faceTriangleCount (f : StepFace) : ℕ :=
  match f.tri with
  | none => 0
  | some ft => if ft.nodesRaise then 0 else countValidTris ft.nodes ft.triItems

/-- `poly.GetNumberOfPolys()` at the end of the face loop. -/
def stepNumPolys (faces : List StepFace) : ℕ :=
  (faces.map faceTriangleCount).sum

/-- `faces_with_no_mesh` counter: faces with no triangulation, plus faces
whose node loop raised. -/
def facesWithNoMesh (faces : List StepFace) : ℕ :=
  (faces.filter
    (fun f => match f.tri with | none => true | some ft => ft.nodesRaise)).length

/-- `step_loader.StepLoadResult`; actors are opaque. -/
structure StepLoadResult where
  actors : List Unit
  warnings : List String
deriving DecidableEq, Repr

/-- Embedding of `step_loader.load_step_ocp`.  Error strings are the
`RuntimeError` messages of the source. -/
def load_step_ocp (env : StepEnv) : Except String StepLoadResult :=
  if !env.ocpAvailable then
    .error "step loading requires opencascade python bindings. install with: pip install cadquery-ocp."
  else if !env.readDone then
    .error "failed to read step file"
  else if !env.shapePresent then
    .error "step file produced no shape"
  else if !env.meshOk then
    .error "failed to triangulate step shape"
  else
    let warns :=
      if 0 < env.faces.length ∧ facesWithNoMesh env.faces = env.faces.length then
        ["no facetable faces were produced from step shape"]
      else []
    if stepNumPolys env.faces = 0 then
      .error "step import produced no renderable triangles"
    else
      .ok ⟨[()], warns⟩

/-! ## Fan triangulation (`fbx_loader._faces_to_triangles`,
`utils_assimp._mesh_to_polydata`) (C8) -/

/-- The fan loop `for i in range(1, len(f) - 1): (f[0], f[i], f[i+1])`,
preceded by the `len(f) < 3` skip (a face with fewer than 3 indices emits
nothing). -/
def fanAux (i0 : ℤ) : List ℤ → List (ℤ × ℤ × ℤ)
  | a :: b :: rest => (i0, a, b) :: fanAux i0 (b :: rest)
  | _ => []

def fan : List ℤ → List (ℤ × ℤ × ℤ)
  | i0 :: rest => fanAux i0 rest
  | [] => []

/-- The claim's description of the fan, written from its words: for a face
`f`, triangles `(f[0], f[i], f[i+1])` for `i = 1 .. n-2`. -/
def fanSpec (f : List ℤ) : List (ℤ × ℤ × ℤ) :=
  (List.range (f.length - 2)).map
    (fun i => (f.getD 0 0, f.getD (i + 1) 0, f.getD (i + 2) 0))

/-- The flat `(idx.size % 3 == 0)` reshape into rows of three. -/
def chunk3 : List ℤ → List (ℤ × ℤ × ℤ)
  | a :: b :: c :: rest => (a, b, c) :: chunk3 rest
  | _ => []

/-- The shapes of `faces_obj` that `_faces_to_triangles` dispatches on.
`nd2` is a 2-d numpy array with at least 3 columns, given as its rows. -/
inductive FacesObj
  | noneObj
  | buffer (idx : List ℤ)
  | nd1 (idx : List ℤ)
  | nd2 (rows : List (List ℤ))
  | flatInts (idx : List ℤ)
  | bufList (faces : List (List ℤ))
  | seqList (faces : List (List ℤ))

/-- Embedding of `fbx_loader._faces_to_triangles`. -/
def faces_to_triangles : FacesObj → List (ℤ × ℤ × ℤ)
  | .noneObj => []
  | .buffer idx =>
    if idx.length < 3 then []
    else if idx.length % 3 ≠ 0 then []
    else chunk3 idx
  | .nd1 idx =>
    if idx.length % 3 ≠ 0 then [] else chunk3 idx
  | .nd2 rows =>
    (rows.map (fun row => fan (row.filter (fun x => decide (0 ≤ x))))).flatten
  | .flatInts idx =>
    if idx.length % 3 ≠ 0 then [] else chunk3 idx
  | .bufList faces => (faces.map fan).flatten
  | .seqList faces => (faces.map fan).flatten

/-- The fan loop of `utils_assimp._mesh_to_polydata` over `mesh.faces`
(cells inserted into the `vtkCellArray`, as index triples). -/
def mesh_to_polydata_cells (faces : List (List ℤ)) : List (ℤ × ℤ × ℤ) :=
  (faces.map fan).flatten

/-! ## Derived notions and concrete sample states -/

/-- How the native importer may transform a pre-existing renderer: same VTK
object (same id), with only freshly created actors appended to it. -/
def ImporterKept (beforeA : List ℕ) (r r' : Renderer) : Prop :=
  r'.rid = r.rid ∧ ∃ ex, r'.actors = r.actors ++ ex ∧ ∀ a ∈ ex, a ∉ beforeA

/-- The `new_actors` list `_detach_new_actors` returns inside
`_import_scene`. -/
def importNews (env : SceneEnv) : List ℕ :=
  (detach_new_actors env.postImportWindow (snapshot_actor_ids env.w0)).2

/-- A window holding one renderer with no actors. -/
def emptyWindow : Window := ⟨[⟨0, []⟩], fun _ => false⟩

/-- Environment exhibiting: native FBX importer available but its import
yields no new actors, while both fallback libraries would succeed. -/
def noActorFbxEnv : SceneEnv :=
  ⟨emptyWindow, true, emptyWindow, .error "parse error", .ok ([1], []), true, .ok [2]⟩

/-- Environment where the native COLLADA importer is unavailable and
pycollada fails. -/
def noVtkColladaEnv : SceneEnv :=
  ⟨emptyWindow, false, emptyWindow, .error "bad dae", .ok ([1], []), false, .error "x"⟩

/-- A pre-call window: one renderer (id 0) holding actor 10. -/
def w0sample : Window := ⟨[⟨0, [10]⟩], fun _ => false⟩

/-- The window after an importer run: actor 20 appended to renderer 0, and
a new renderer (id 1) holding new actor 21. -/
def postSample : Window := ⟨[⟨0, [10, 20]⟩, ⟨1, [21]⟩], fun _ => false⟩

def envSample : SceneEnv :=
  ⟨w0sample, true, postSample, .error "e", .error "e", false, .error "e"⟩

def sampleStepEnv : StepEnv :=
  ⟨true, true, true, true, [⟨some ⟨[1, 2, 3], false, [some (1, 2, 3)]⟩⟩]⟩

def sampleSel : SelectedState := ⟨7, 0, ((0 : ℚ), 0, 0), 1⟩

/-- A scene with actor 7 selected and actor 3 hidden. -/
def sampleScene : SceneState :=
  ⟨[7], some sampleSel, {3}, fun _ => ⟨0, ((0 : ℚ), 0, 0), 1⟩, fun _ => 1⟩

/-- A scene with nothing selected. -/
def plainScene : SceneState :=
  ⟨[5], none, ∅, fun _ => ⟨0, ((0 : ℚ), 0, 0), 1⟩, fun _ => 1⟩

/-! ## Helper lemmas -/

theorem selectedActors_length_le (s : SceneState) : (selectedActors s).length ≤ 1 := by
  cases h : s.selected <;> simp [selectedActors, h]

theorem fanAux_eq (i0 : ℤ) (l : List ℤ) :
    fanAux i0 l = (List.range (l.length - 1)).map
      (fun i => (i0, l.getD i 0, l.getD (i + 1) 0)) := by
  induction l with
  | nil => rfl
  | cons a rest ih =>
    cases rest with
    | nil => rfl
    | cons b rest2 =>
      show (i0, a, b) :: fanAux i0 (b :: rest2) = _
      rw [ih]
      simp only [List.length_cons, Nat.add_sub_cancel]
      rw [List.range_succ_eq_map]
      simp [List.map_map, Function.comp_def]

theorem fan_eq_fanSpec (f : List ℤ) : fan f = fanSpec f := by
  cases f with
  | nil => rfl
  | cons i0 rest =>
    show fanAux i0 rest = _
    rw [fanAux_eq]
    unfold fanSpec
    simp [List.length_cons]

theorem mem_snapshot {w : Window} {a : ℕ} :
    a ∈ snapshot_actor_ids w ↔ ∃ r ∈ w.renderers, a ∈ r.actors := by
  simp [snapshot_actor_ids, List.mem_flatten]

theorem mem_detach_news (w : Window) (before : List ℕ) (a : ℕ) :
    a ∈ (detach_new_actors w before).2 ↔
      a ∈ snapshot_actor_ids w ∧ a ∉ before := by
  simp only [detach_new_actors, List.mem_flatten, List.mem_map, mem_snapshot]
  constructor
  · rintro ⟨l, ⟨r, hr, rfl⟩, hal⟩
    rw [List.mem_filter] at hal
    exact ⟨⟨r, hr, hal.1⟩, by simpa using hal.2⟩
  · rintro ⟨⟨r, hr, har⟩, hnb⟩
    exact ⟨_, ⟨r, hr, rfl⟩, by simp [List.mem_filter, har, hnb]⟩

theorem detach_window_renderers (w : Window) (before : List ℕ) :
    (detach_new_actors w before).1.renderers =
      w.renderers.map
        (fun r => { r with actors := r.actors.filter (fun a => decide (a ∈ before)) }) := rfl

/-- Detaching restores an importer-touched pre-existing renderer row to its
pre-call actor list. -/
theorem detach_restores_old {beforeA : List ℕ} {rs old : List Renderer}
    (hf : List.Forall₂ (ImporterKept beforeA) rs old)
    (hsub : ∀ r ∈ rs, ∀ a ∈ r.actors, a ∈ beforeA) :
    old.map (fun r => { r with actors := r.actors.filter (fun a => decide (a ∈ beforeA)) }) = rs := by
  induction hf with
  | nil => rfl
  | @cons r r' rs2 old2 hrel _ ih =>
    obtain ⟨hid, ex, hact, hex⟩ := hrel
    have h1 : r.actors.filter (fun a => decide (a ∈ beforeA)) = r.actors := by
      rw [List.filter_eq_self]
      intro a ha
      simpa using hsub r (by simp) a ha
    have h2 : ex.filter (fun a => decide (a ∈ beforeA)) = [] := by
      rw [List.filter_eq_nil_iff]
      intro a ha
      simpa using hex a ha
    simp only [List.map_cons, hact, List.filter_append, h1, h2, List.append_nil]
    rw [ih (fun r hr => hsub r (by simp [hr]))]
    congr 1
    cases r' with
    | mk rid actors => cases r with
      | mk rid2 actors2 => simp_all

/-- In the native-importer path the final window is always the detached,
pruned one, whichever sub-branch returns. -/
theorem importScene_native_window (t : ImporterType) (env : SceneEnv) (keep : ℕ)
    (h : env.nativeAvailable = true) :
    (importScene t env keep).window =
      prune_new_renderers
        (detach_new_actors env.postImportWindow (snapshot_actor_ids env.w0)).1
        (rendererIds env.w0) keep := by
  simp only [importScene, h]
  repeat' split
  all_goals first | rfl | simp_all

/-- In the native-importer path with new actors detected, those actors are
returned with no warnings. -/
theorem importScene_native_result (t : ImporterType) (env : SceneEnv) (keep : ℕ)
    (h : env.nativeAvailable = true) (hne : importNews env ≠ []) :
    (importScene t env keep).result = .ok ⟨importNews env, []⟩ := by
  simp only [importScene, h, importNews] at *
  simp [hne]

/-! ## Claim C1 -/

/-- Claim C1 counterexample: the file `model.vtp` has an extension outside
the spec's format list, yet `load_model_into_renderer` selects the VTK XML
PolyData reader for it instead of raising `ValueError`. -/
theorem C1_counterexample :
    load_model_into_renderer "model.vtp" = LoadAction.readVtp ∧
    load_model_into_renderer "model.vtp" ≠ LoadAction.unsupported "vtp" ∧
    "vtp" ∉ specListedExtensions := by decide

/-- Claim C1 (amended): `load_model_into_renderer` selects its loader purely
from the file's lowercased, dot-stripped extension, per the table covering
the spec's formats plus `.vtp`; every extension outside that table raises
`ValueError("unsupported file extension")`. -/
theorem C1_extension_dispatch (p : String) :
    load_model_into_renderer p = specDispatchTable (pyExtKey p) ∧
    (∀ e, e ∉ handledExtensions → specDispatchTable e = LoadAction.unsupported e) := by
  constructor
  · rfl
  · intro e he
    simp only [handledExtensions, List.mem_cons, List.not_mem_nil, or_false, not_or] at he
    obtain ⟨h1, h2, h3, h4, h5, h6, h7, h8, h9, h10⟩ := he
    simp [specDispatchTable, h1, h2, h3, h4, h5, h6, h7, h8, h9, h10]

/-- Witness for C1 at a concrete unhandled extension. -/
theorem C1_extension_dispatch_witness :
    ("tga" ∉ handledExtensions) ∧ specDispatchTable "tga" = LoadAction.unsupported "tga" :=
  ⟨by decide, (C1_extension_dispatch "m.tga").2 "tga" (by decide)⟩

/-! ## Claim C2 -/

/-- Claim C2 counterexample: for FBX with the native importer available but
yielding no new actors, `_import_scene` attempts no fallback at all and
returns an empty `LoadResult` without raising — the chain neither continues
nor ends in an error. -/
theorem C2_counterexample :
    (importScene .fbx noActorFbxEnv 0).trace = [Stage.nativeImporter] ∧
    Stage.assimpPyFallback ∉ (importScene .fbx noActorFbxEnv 0).trace ∧
    (importScene .fbx noActorFbxEnv 0).result
      = .ok ⟨[], ["import finished but no new actors were detected"]⟩ :=
  ⟨rfl, by decide, rfl⟩

/-- Claim C2 (amended): the native VTK importer is attempted first exactly
when its class is available.  The pycollada fallback runs for COLLADA when
the native importer is unavailable or yielded no new actors; the assimp-py
fallback runs for FBX only when the native importer is unavailable; the
generic pyassimp fallback is reached only for glTF with the native importer
unavailable.  The load raises iff the native importer is unavailable and
the format's sole fallback stage fails (for glTF: pyassimp is missing or
fails); a native import that yields no actors returns an empty result
without raising. -/
theorem C2_fallback_chain (t : ImporterType) (env : SceneEnv) (keep : ℕ) :
    ((importScene t env keep).trace.head? = some Stage.nativeImporter ↔
      env.nativeAvailable = true) ∧
    (Stage.pycolladaFallback ∈ (importScene .collada env keep).trace ↔
      (env.nativeAvailable = false ∨ importNews env = [])) ∧
    (Stage.assimpPyFallback ∈ (importScene .fbx env keep).trace ↔
      env.nativeAvailable = false) ∧
    (Stage.pyassimpFallback ∈ (importScene .gltf env keep).trace ↔
      (env.nativeAvailable = false ∧ env.pyassimpAvailable = true)) ∧
    (Stage.pyassimpFallback ∉ (importScene .collada env keep).trace ∧
     Stage.pyassimpFallback ∉ (importScene .fbx env keep).trace) ∧
    (isRaise (importScene .collada env keep) ↔
      env.nativeAvailable = false ∧ ∃ e, env.pycollada = .error e) ∧
    (isRaise (importScene .fbx env keep) ↔
      env.nativeAvailable = false ∧ ∃ e, env.assimpPy = .error e) ∧
    (isRaise (importScene .gltf env keep) ↔
      env.nativeAvailable = false ∧
      (env.pyassimpAvailable = false ∨ ∃ e, env.pyassimpLoad = .error e)) := by
  refine ⟨?_, ?_, ?_, ?_, ⟨?_, ?_⟩, ?_, ?_, ?_⟩ <;>
    · cases hna : env.nativeAvailable <;>
        cases t <;>
          · simp only [importScene, importNews, hna, isRaise]
            repeat' split
            all_goals simp_all

/-- Witness for C2 at a concrete environment: native COLLADA importer
missing and pycollada failing makes the load raise. -/
theorem C2_fallback_chain_witness : isRaise (importScene .collada noVtkColladaEnv 0) :=
  ((C2_fallback_chain .collada noVtkColladaEnv 0).2.2.2.2.2.1).mpr ⟨rfl, "bad dae", rfl⟩

/-! ## Claim C3 -/

/-- Claim C3: whatever exception text `e` the loader raises, `load_file`
shows one error dialog carrying `e` and the file path, emits the
`"load failed"` status message, and returns normally (the embedding's
codomain is a plain state — the `except Exception` handler lets no loading
exception propagate). -/
theorem C3_load_file_catches (clearOnLoad : Bool) (s : SceneState) (p e : String) :
    (load_file clearOnLoad s p (Except.error e)).dialogs
        = ["failed to load file:\n" ++ p ++ "\n\n" ++ e] ∧
    (load_file clearOnLoad s p (Except.error e)).statuses = ["load failed"] :=
  ⟨rfl, rfl⟩

/-! ## Claim C4 -/

/-- Claim C4: when the native importer ran (only adding fresh actors to the
pre-existing renderers and possibly fresh renderers, as VTK importers do),
`_import_scene` leaves the window with exactly the renderers and actor
attachments it had before the call; the detected new actors are exactly
those the import added, all detached from every renderer, all pickable, and
returned in `LoadResult.actors` when any exist; pre-existing actors keep
their pickable flag. -/
theorem C4_window_restoration (t : ImporterType) (env : SceneEnv) (keep : ℕ)
    (newRs old : List Renderer)
    (hnat : env.nativeAvailable = true)
    (hkeep : keep ∈ rendererIds env.w0)
    (hpost : env.postImportWindow.renderers = old ++ newRs)
    (hold : List.Forall₂ (ImporterKept (snapshot_actor_ids env.w0)) env.w0.renderers old)
    (hnewR : ∀ r ∈ newRs, r.rid ∉ rendererIds env.w0) :
    (importScene t env keep).window.renderers = env.w0.renderers ∧
    (∀ a, a ∈ importNews env ↔
      (a ∈ snapshot_actor_ids env.postImportWindow ∧ a ∉ snapshot_actor_ids env.w0)) ∧
    (∀ a ∈ importNews env, a ∉ snapshot_actor_ids (importScene t env keep).window) ∧
    (∀ a ∈ importNews env, (importScene t env keep).window.pickable a = true) ∧
    (∀ a ∈ snapshot_actor_ids env.w0,
      (importScene t env keep).window.pickable a = env.postImportWindow.pickable a) ∧
    (importNews env ≠ [] →
      (importScene t env keep).result = .ok ⟨importNews env, []⟩) := by
  have hsub : ∀ r ∈ env.w0.renderers, ∀ a ∈ r.actors, a ∈ snapshot_actor_ids env.w0 := by
    intro r hr a ha
    exact mem_snapshot.mpr ⟨r, hr, ha⟩
  have hwr : (importScene t env keep).window.renderers = env.w0.renderers := by
    rw [importScene_native_window t env keep hnat]
    simp only [prune_new_renderers, detach_window_renderers, hpost, List.map_append,
      List.filter_append]
    rw [detach_restores_old hold hsub]
    have h1 : env.w0.renderers.filter
        (fun r => decide (r.rid = keep ∨ r.rid ∈ rendererIds env.w0)) = env.w0.renderers := by
      rw [List.filter_eq_self]
      intro r hr
      simp only [decide_eq_true_iff]
      exact Or.inr (List.mem_map.mpr ⟨r, hr, rfl⟩)
    have h2 : (newRs.map
        (fun r => { r with actors := r.actors.filter (fun a => decide (a ∈ snapshot_actor_ids env.w0)) })).filter
        (fun r => decide (r.rid = keep ∨ r.rid ∈ rendererIds env.w0)) = [] := by
      rw [List.filter_eq_nil_iff]
      intro r hr
      rw [List.mem_map] at hr
      obtain ⟨r0, hr0, rfl⟩ := hr
      simp only [decide_eq_true_iff, not_or]
      have hnr := hnewR r0 hr0
      exact ⟨fun hk => hnr (hk ▸ hkeep), hnr⟩
    rw [h1, h2, List.append_nil]
  have hpick : ∀ a, (importScene t env keep).window.pickable a =
      if a ∈ importNews env then true else env.postImportWindow.pickable a := by
    intro a
    rw [importScene_native_window t env keep hnat]
    rfl
  refine ⟨hwr, ?_, ?_, ?_, ?_, importScene_native_result t env keep hnat⟩
  · intro a
    exact mem_detach_news env.postImportWindow (snapshot_actor_ids env.w0) a
  · intro a ha
    have h1 := (mem_detach_news env.postImportWindow (snapshot_actor_ids env.w0) a).mp ha
    intro hmem
    apply h1.2
    rw [mem_snapshot] at hmem
    obtain ⟨r, hr, har⟩ := hmem
    rw [hwr] at hr
    exact mem_snapshot.mpr ⟨r, hr, har⟩
  · intro a ha
    rw [hpick a, if_pos ha]
  · intro a ha
    have hni : a ∉ importNews env := by
      intro hmem
      exact ((mem_detach_news _ _ a).mp hmem).2 ha
    rw [hpick a, if_neg hni]

/-- Witness for C4 at a concrete importer run (actor 20 appended to the
pre-existing renderer, new renderer 1 holding new actor 21). -/
theorem C4_window_restoration_witness :
    (importScene .gltf envSample 0).window.renderers = envSample.w0.renderers :=
  (C4_window_restoration .gltf envSample 0 [⟨1, [21]⟩] [⟨0, [10, 20]⟩] rfl (by decide) rfl
    (List.Forall₂.cons ⟨rfl, [20], rfl, by decide⟩ List.Forall₂.nil) (by decide)).1

/-! ## Claim C5 -/

/-- Claim C5: `hide_selected` returns `True` exactly when an actor is
selected, and then zeroes that actor's visibility, adds it to the hidden
set and clears the selection; with no selection it returns `False` leaving
the state unchanged.  `reveal_all_hidden` sets visibility 1 on every hidden
actor, empties the hidden set and returns the number revealed (0 when none
were hidden). -/
theorem C5_hide_and_reveal (s : SceneState) :
    (s.selected = none → hide_selected s = (false, s)) ∧
    (∀ st, s.selected = some st →
      (hide_selected s).1 = true ∧
      (hide_selected s).2.visibility st.actor = 0 ∧
      st.actor ∈ (hide_selected s).2.hidden ∧
      (hide_selected s).2.selected = none) ∧
    (reveal_all_hidden s).1 = s.hidden.card ∧
    (reveal_all_hidden s).2.hidden = ∅ ∧
    (∀ a ∈ s.hidden, (reveal_all_hidden s).2.visibility a = 1) := by
  refine ⟨?_, ?_, ?_, ?_, ?_⟩
  · intro h; simp [hide_selected, h]
  · intro st h
    simp [hide_selected, h, clear_selection]
  · by_cases h : s.hidden = ∅ <;> simp [reveal_all_hidden, h]
  · by_cases h : s.hidden = ∅ <;> simp [reveal_all_hidden, h]
  · intro a ha
    have h : ¬ s.hidden = ∅ := by intro h; rw [h] at ha; simp at ha
    simp [reveal_all_hidden, h, ha]

/-- Witness for C5 at a concrete scene with actor 7 selected. -/
theorem C5_hide_and_reveal_witness :
    (hide_selected sampleScene).1 = true ∧
    (hide_selected sampleScene).2.visibility sampleSel.actor = 0 ∧
    sampleSel.actor ∈ (hide_selected sampleScene).2.hidden ∧
    (hide_selected sampleScene).2.selected = none :=
  (C5_hide_and_reveal sampleScene).2.1 sampleSel rfl

/-! ## Claim C6 -/

/-- Claim C6: `load_step_ocp` raises `RuntimeError` exactly when the OCP
bindings are missing, the read is not done-status, the shape is absent,
triangulation fails, or the assembled polydata has zero triangles; on
success it returns exactly one actor (so never an empty actor list). -/
theorem C6_step_loader (env : StepEnv) :
    ((∃ e, load_step_ocp env = .error e) ↔
      (env.ocpAvailable = false ∨ env.readDone = false ∨ env.shapePresent = false ∨
       env.meshOk = false ∨ stepNumPolys env.faces = 0)) ∧
    (∀ r, load_step_ocp env = .ok r → r.actors.length = 1) := by
  constructor
  · unfold load_step_ocp
    split_ifs with h1 h2 h3 h4 h5 <;>
      simp_all [Bool.not_eq_true', Bool.not_eq_false]
  · intro r h
    unfold load_step_ocp at h
    split_ifs at h
    all_goals simp only [Except.ok.injEq, reduceCtorEq] at h
    all_goals (subst h; rfl)

/-- Witness for C6 at a concrete successful environment (one face, one
valid triangle). -/
theorem C6_step_loader_witness :
    load_step_ocp sampleStepEnv = .ok ⟨[()], []⟩ ∧
    (StepLoadResult.mk [()] []).actors.length = 1 :=
  ⟨rfl, (C6_step_loader sampleStepEnv).2 ⟨[()], []⟩ rfl⟩

/-! ## Claim C7 -/

/-- Claim C7: at most one actor is selected at any time; selecting an
already-selected actor changes nothing; and `select_actor(a)` followed by
`clear_selection()` restores `a`'s edge visibility, edge color and line
width exactly and leaves nothing selected. -/
theorem C7_selection_reversible (s : SceneState) (a : ℕ) :
    (selectedActors (select_actor s (some a))).length ≤ 1 ∧
    (∀ st, s.selected = some st → st.actor = a → select_actor s (some a) = s) ∧
    ((∀ st, s.selected = some st → st.actor ≠ a) →
      (clear_selection (select_actor s (some a))).props a = s.props a ∧
      (clear_selection (select_actor s (some a))).selected = none) := by
  refine ⟨selectedActors_length_le _, ?_, ?_⟩
  · intro st h1 h2
    simp [select_actor, isSelected, h1, h2]
  · intro h
    cases hs : s.selected with
    | none =>
      constructor <;> simp [select_actor, isSelected, clear_selection, hs]
    | some st =>
      have hne : st.actor ≠ a := h st hs
      have hne2 : a ≠ st.actor := Ne.symm hne
      constructor <;> simp [select_actor, isSelected, clear_selection, hs, hne, hne2]

/-- Witness for C7: select-then-clear on a concrete scene restores actor
5's properties. -/
theorem C7_selection_reversible_witness :
    (clear_selection (select_actor plainScene (some 5))).props 5 = plainScene.props 5 ∧
    (clear_selection (select_actor plainScene (some 5))).selected = none :=
  (C7_selection_reversible plainScene 5).2.2 (by intro st h; simp [plainScene] at h)

/-! ## Claim C8 -/

/-- Claim C8: the fan triangulation is uniform across the assimp adapters —
each face's emitted triangles are exactly `(f[0], f[i], f[i+1])` for
`i = 1 .. n-2` (so `n-2` triangles, none for faces with fewer than 3
indices; in the 2-d ndarray branch the face's index list is its
non-negative entries), and a flat index buffer or flat index list whose
length is not a multiple of 3 yields an empty triangle array. -/
theorem C8_fan_triangulation (f : List ℤ) (faces rows : List (List ℤ)) (idx : List ℤ) :
    fan f = fanSpec f ∧
    (fan f).length = f.length - 2 ∧
    faces_to_triangles (.seqList faces) = (faces.map fanSpec).flatten ∧
    faces_to_triangles (.bufList faces) = (faces.map fanSpec).flatten ∧
    mesh_to_polydata_cells faces = (faces.map fanSpec).flatten ∧
    faces_to_triangles (.nd2 rows)
      = (rows.map (fun row => fanSpec (row.filter (fun x => decide (0 ≤ x))))).flatten ∧
    (idx.length % 3 ≠ 0 →
      faces_to_triangles (.buffer idx) = [] ∧
      faces_to_triangles (.nd1 idx) = [] ∧
      faces_to_triangles (.flatInts idx) = []) := by
  have hfun : fan = fanSpec := funext fan_eq_fanSpec
  refine ⟨fan_eq_fanSpec f, ?_, ?_, ?_, ?_, ?_, ?_⟩
  · rw [fan_eq_fanSpec]; simp [fanSpec]
  · simp only [faces_to_triangles, hfun]
  · simp only [faces_to_triangles, hfun]
  · simp only [mesh_to_polydata_cells, hfun]
  · simp only [faces_to_triangles, hfun]
  · intro h
    refine ⟨?_, ?_, ?_⟩ <;>
      · simp only [faces_to_triangles]
        split_ifs <;> simp_all

/-- Witness for C8 at a concrete flat index list of length 2. -/
theorem C8_fan_triangulation_witness :
    (([1, 2] : List ℤ).length % 3 ≠ 0) ∧
    faces_to_triangles (.buffer [1, 2]) = [] ∧
    faces_to_triangles (.nd1 [1, 2]) = [] ∧
    faces_to_triangles (.flatInts [1, 2]) = [] :=
  ⟨by decide, (C8_fan_triangulation [] [] [] [1, 2]).2.2.2.2.2.2 (by decide)⟩

end Vertexa
